import Mathlib

/-!
Verification of the playback-sync and handshake core of the webrct-watch-party
repository, as a shallow embedding in Lean.

Times on the media timeline are rationals (JS numbers, seconds); wall-clock
instants from Date.now are integers (milliseconds).  React setState calls are
modelled as pure record updates; a setTimeout is modelled as the scheduled
delay returned alongside the new state.  UI strings are reproduced verbatim
up to dropped apostrophes and emoji.
-/

namespace WatchParty

/-- Wire unit of the sync protocol (SyncMessage in src/lib/types.ts): a JSON
object with keys action, timestamp, senderId.  The action field is kept as an
arbitrary string, since unknown values fall through the switch in handleData. -/
structure SyncMessage where
  action : String
  timestamp : ℚ
  senderId : String
deriving DecidableEq

/-- The slice of the HTMLVideoElement that the sync engine reads and writes. -/
structure VideoEl where
  paused : Bool
  currentTime : ℚ
deriving DecidableEq

/-- Primitive mutations the engine performs on the video element.  They are
kept as a trace so that ordering (drift-correction before play, pause before
the snap) stays observable. -/
inductive VideoOp where
  | setCurrentTime (t : ℚ)
  | play
  | pause
deriving DecidableEq

def applyOp (v : VideoEl) : VideoOp → VideoEl
  | VideoOp.setCurrentTime t => { v with currentTime := t }
  | VideoOp.play => { v with paused := false }
  | VideoOp.pause => { v with paused := true }

def applyOps (v : VideoEl) (ops : List VideoOp) : VideoEl :=
  ops.foldl applyOp v

/-- Component state of a VideoPlayer engine instance: the peer prop (non-null
or not), the senderId generated once per instance, the isProcessingSync flag,
the lastSyncTimeRef in ms, the isPlaying mirror and the video element. -/
structure PlayerState where
  hasPeer : Bool
  senderId : String
  isProcessingSync : Bool
  lastSyncTime : ℤ
  isPlaying : Bool
  video : VideoEl
deriving DecidableEq

/-- Sync threshold of 0.5 s (src/unnamed/part_002, SYNC_THRESHOLD). -/
def SYNC_THRESHOLD : ℚ := 1 / 2

/-- Video-element operations performed by the switch in handleData of the
active VideoPlayer (src/unnamed/part_002 lines 185-204): play drift-corrects
only beyond the threshold and then plays; pause stops and then snaps the time
unconditionally; seek snaps; ready and unknown actions touch nothing. -/
def remoteOps (v : VideoEl) (m : SyncMessage) : List VideoOp :=
  if m.action = "play" then
    (if |v.currentTime - m.timestamp| > SYNC_THRESHOLD then
      [VideoOp.setCurrentTime m.timestamp] else []) ++ [VideoOp.play]
  else if m.action = "pause" then
    [VideoOp.pause, VideoOp.setCurrentTime m.timestamp]
  else if m.action = "seek" then
    [VideoOp.setCurrentTime m.timestamp]
  else []

/-- handleData of the active VideoPlayer (src/unnamed/part_002 lines 169-215),
after a successful JSON.parse of the incoming data.  Messages carrying the
engines own senderId are dropped before any state change.  Otherwise the
engine sets isProcessingSync, applies the action, mirrors isPlaying for play
and pause, and schedules clearing of the flag after 500 ms (the returned
delay). -/
def handleData (s : PlayerState) (m : SyncMessage) : PlayerState × Option ℕ :=
  if m.senderId = s.senderId then (s, none)
  else
    let v := applyOps s.video (remoteOps s.video m)
    let playing :=
      if m.action = "play" then true
      else if m.action = "pause" then false
      else s.isPlaying
    ({ s with video := v, isPlaying := playing, isProcessingSync := true }, some 500)

/-- Video-element operations of the legacy VideoPlayer variant
(src/unnamed/part_001 lines 106-131): here the 0.5 s tolerance guards the
snap for pause as well as for play, and the snap precedes the pause call. -/
def remoteOpsLegacy (v : VideoEl) (m : SyncMessage) : List VideoOp :=
  let timeDiff := |v.currentTime - m.timestamp|
  if m.action = "play" then
    (if timeDiff > (1 : ℚ) / 2 then [VideoOp.setCurrentTime m.timestamp] else [])
      ++ [VideoOp.play]
  else if m.action = "pause" then
    (if timeDiff > (1 : ℚ) / 2 then [VideoOp.setCurrentTime m.timestamp] else [])
      ++ [VideoOp.pause]
  else if m.action = "seek" then
    [VideoOp.setCurrentTime m.timestamp]
  else []

/-- handleData of the legacy VideoPlayer variant (src/unnamed/part_001 lines
97-142): same self-echo guard, 300 ms settle delay, no isPlaying mirror. -/
def handleDataLegacy (s : PlayerState) (m : SyncMessage) : PlayerState × Option ℕ :=
  if m.senderId = s.senderId then (s, none)
  else
    ({ s with video := applyOps s.video (remoteOpsLegacy s.video m),
              isProcessingSync := true }, some 300)

/-- sendSync (src/unnamed/part_002 lines 82-89; identical logic in
src/unnamed/part_001 lines 50-58): drop the send when the peer is null or the
engine is applying a remote message; drop it when less than 200 ms have passed
since the last send; otherwise record the send time and emit the message. -/
def sendSync (s : PlayerState) (now : ℤ) (action : String) (timestamp : ℚ) :
    PlayerState × Option SyncMessage :=
  if s.hasPeer = false ∨ s.isProcessingSync = true then (s, none)
  else if now - s.lastSyncTime < 200 then (s, none)
  else ({ s with lastSyncTime := now },
        some { action := action, timestamp := timestamp, senderId := s.senderId })

/-- The values JSON.parse can return.  JSON.parse itself is a platform
function; the embedding passes it around abstractly as a function returning
none exactly when the parse throws. -/
inductive Json where
  | null
  | bool (b : Bool)
  | num (q : ℚ)
  | str (s : String)
  | arr (elems : List Json)
  | obj (fields : List (String × Json))

/-- JS boolean coercion of a JSON.parse result.  A NaN number cannot arise
from JSON, so numbers are falsy exactly at zero. -/
def jsTruthy : Json → Bool
  | Json.null => false
  | Json.bool b => b
  | Json.num q => decide (q ≠ 0)
  | Json.str s => decide (s ≠ "")
  | Json.arr _ => true
  | Json.obj _ => true

/-- The test typeof parsed === the string for object: true for null, arrays
and objects. -/
def jsTypeofObject : Json → Bool
  | Json.null => true
  | Json.arr _ => true
  | Json.obj _ => true
  | _ => false

/-- The JS in operator applied to a JSON.parse result: an object owns exactly
its keys; a JSON array owns only numeric indices, never a named key such as
type; primitives are never consulted here because the typeof guard comes
first in the source. -/
def jsHasProp (k : String) : Json → Bool
  | Json.obj fields => fields.any (fun f => f.1 = k)
  | _ => false

/-- validateSignalData (src/lib/webrtc.ts lines 176-183): parse the string,
return false from the catch when JSON.parse throws, and otherwise return the
JS value of parsed, then typeof parsed === object, then the key test, read
through its boolean coercion. -/
def validateSignalData (parse : String → Option Json) (data : String) : Bool :=
  match parse data with
  | none => false
  | some parsed => jsTruthy parsed && jsTypeofObject parsed && jsHasProp "type" parsed

/-- Spec-side reading for C8: the parsed value is a non-null JSON object that
has a key named type. -/
def isObjectWithTypeKey : Json → Bool
  | Json.obj fields => fields.any (fun f => f.1 = "type")
  | _ => false

/-- JS property read of the key type followed by strict comparison with a
string literal t, as in blob.type === t.  JSON.parse keeps a single value per
key, so the first matching field is the property. -/
def fieldTypeIs (t : String) : List (String × Json) → Bool
  | [] => false
  | (k, v) :: rest =>
    if k = "type" then
      match v with
      | Json.str s => s = t
      | _ => false
    else fieldTypeIs t rest

/-- The check blob.type === t on a parsed signal blob. -/
def typeIs (j : Json) (t : String) : Bool :=
  match j with
  | Json.obj fields => fieldTypeIs t fields
  | _ => false

/-! ## Host (Initiator) handshake: RoomCreator -/

inductive HostStatus where
  | idle
  | generating
  | waiting
  | connecting
  | connected
  | error
deriving DecidableEq

/-- React state of the active RoomCreator (src/unnamed/part_004) read or
written by handleConnect, together with the two facts it reads off the stored
peer object. -/
structure HostState where
  hasPeer : Bool
  peerDestroyed : Bool
  status : HostStatus
  errorMessage : String
  hasSignaled : Bool
deriving DecidableEq

/-- The JS String.prototype.trim call used on the pasted blobs: strip leading
and trailing whitespace. -/
def jsTrim (s : String) : String :=
  String.mk (((s.toList.dropWhile Char.isWhitespace).reverse.dropWhile
    Char.isWhitespace).reverse)

def errPasteAnswer : String := "Please paste the guest answer data"

def errAlreadyProcessing : String := "Already processing connection. Please wait..."

def errAlreadyConnected : String := "Already connected!"

def errPeerClosed : String := "Connection was closed. Please refresh and try again."

def errInvalidAnswer : String := "Invalid answer data format"

def errHostWrongType : String :=
  "Wrong signal type! As HOST, you must paste the GUEST ANSWER (type: \"answer\"), not an offer."

def errSignalFailed : String := "Failed to establish connection"

/-- handleConnect of the host session (src/unnamed/part_004 lines 86-137;
the same guard chain appears in src/components/RoomCreator.tsx lines 76-123).
The second component is the blob forwarded to peer.signal, none when nothing
is forwarded. -/
def handleConnect (parse : String → Option Json) (s : HostState)
    (answerData : String) : HostState × Option Json :=
  if s.hasPeer = false ∨ jsTrim answerData = "" then
    ({ s with errorMessage := errPasteAnswer }, none)
  else if s.hasSignaled = true then
    ({ s with errorMessage := errAlreadyProcessing }, none)
  else if s.status = HostStatus.connected then
    ({ s with errorMessage := errAlreadyConnected }, none)
  else if s.peerDestroyed = true then
    ({ s with errorMessage := errPeerClosed }, none)
  else if validateSignalData parse answerData = false then
    ({ s with errorMessage := errInvalidAnswer }, none)
  else
    match parse answerData with
    | none =>
      ({ s with errorMessage := errSignalFailed, hasSignaled := false,
                status := HostStatus.waiting }, none)
    | some answer =>
      if typeIs answer "answer" = false then
        ({ s with errorMessage := errHostWrongType }, none)
      else
        ({ s with status := HostStatus.connecting, hasSignaled := true,
                  errorMessage := "" }, some answer)

/-- Substring test backing the two offer.includes checks in the onSignal
handlers. -/
def includesSub (hay needle : String) : Bool :=
  decide (needle.toList <:+: hay.toList)

def warnNoWan : String :=
  "Warning: No public IP found. Internet connection will likely fail."

/-- React state of the host session touched by the onSignal callback of
handleGenerateOffer. -/
structure HostSignalState where
  offerData : Option String
  status : HostStatus
  errorMessage : String
  copied : Bool
deriving DecidableEq

/-- The onSignal callback installed by handleGenerateOffer of the active
RoomCreator (src/unnamed/part_004 lines 33-59): signals whose type is not
offer are dropped with only a console log; an offer-kind signal is stringified
by the platform (passed in abstractly), WAN-checked, stored as offerData,
moves the status to waiting and triggers the clipboard copy. -/
def hostOnSignal (stringify : Json → String) (s : HostSignalState)
    (data : Json) : HostSignalState :=
  if typeIs data "offer" = false then s
  else
    let offer := stringify data
    let isWANReady := includesSub offer "typ srflx"
    let hasRelay := includesSub offer "typ relay"
    let msg :=
      if isWANReady = false ∧ hasRelay = false then warnNoWan
      else if hasRelay = false then s.errorMessage
      else ""
    { offerData := some offer, status := HostStatus.waiting,
      errorMessage := msg, copied := true }

/-- The onSignal callback installed by handleGenerateOffer of the legacy
RoomCreator (src/components/RoomCreator.tsx lines 29-53): it has no kind
filter at all, so every signal event, whatever its type, is stringified,
WAN-checked, stored as offerData and surfaced to the user. -/
def hostOnSignalLegacy (stringify : Json → String) (s : HostSignalState)
    (data : Json) : HostSignalState :=
  let offer := stringify data
  let isWANReady := includesSub offer "typ srflx"
  let hasRelay := includesSub offer "typ relay"
  let msg :=
    if isWANReady = false ∧ hasRelay = false then warnNoWan
    else if hasRelay = false then s.errorMessage
    else ""
  { offerData := some offer, status := HostStatus.waiting,
    errorMessage := msg, copied := true }

/-- React state of the guest session touched by the onSignal callback of
handleGenerateAnswer. -/
structure GuestSignalState where
  answerData : Option String
  errorMessage : String
  copied : Bool
deriving DecidableEq

/-- The onSignal callback installed by handleGenerateAnswer of the active
RoomJoiner (src/components/ConnectionStatus.tsx lines 111-136): signals whose
type is not answer are dropped with only a console log; an answer-kind signal
is stringified, WAN-checked, stored as answerData and copied. -/
def guestOnSignal (stringify : Json → String) (s : GuestSignalState)
    (data : Json) : GuestSignalState :=
  if typeIs data "answer" = false then s
  else
    let answer := stringify data
    let isWANReady := includesSub answer "typ srflx"
    let hasRelay := includesSub answer "typ relay"
    let msg :=
      if isWANReady = false ∧ hasRelay = false then warnNoWan
      else if hasRelay = false then s.errorMessage
      else ""
    { answerData := some answer, errorMessage := msg, copied := true }

/-! ## Guest (Responder) join flow: RoomJoiner -/

inductive GuestStatus where
  | idle
  | generating
  | connected
  | error
deriving DecidableEq

/-- React state of the RoomJoiner touched by handleGenerateAnswer, with
peerCreated recording whether a peer connection object has been allocated and
stored (setPeer). -/
structure GuestState where
  peerCreated : Bool
  status : GuestStatus
  errorMessage : String
deriving DecidableEq

def errPasteOffer : String := "Please paste the host OFFER first"

def errInvalidOffer : String := "Invalid OFFER format"

def errGuestWrongType : String :=
  "Wrong signal type! You must paste the HOST KEY (type: \"offer\")."

def errParseOffer : String := "Failed to parse OFFER data"

/-- handleGenerateAnswer of the active RoomJoiner
(src/components/ConnectionStatus.tsx lines 85-164; the same rejection chain
appears in src/unnamed/part_005 lines 20-75).  The boolean result records
whether createPeerConnection ran; all three rejection paths return before it
does.  The catch branch around JSON.parse is unreachable once
validateSignalData has passed, since both consult the same parse. -/
def handleGenerateAnswer (parse : String → Option Json) (s : GuestState)
    (offerData : String) : GuestState × Bool :=
  if jsTrim offerData = "" then
    ({ s with errorMessage := errPasteOffer }, false)
  else if validateSignalData parse offerData = false then
    ({ s with errorMessage := errInvalidOffer }, false)
  else
    match parse offerData with
    | none =>
      ({ s with status := GuestStatus.error, errorMessage := errParseOffer }, false)
    | some offer =>
      if typeIs offer "offer" = false then
        ({ s with errorMessage := errGuestWrongType }, false)
      else
        ({ s with status := GuestStatus.generating, errorMessage := "",
                  peerCreated := true }, true)

/-! ## Claim theorems: sync protocol engine -/

/-- Claim C1: for every inbound Play message applied by the sync engine (one
whose senderId differs from its own), a drift above 0.5 s makes the engine
set the local current time to the message timestamp before playback starts,
while a drift of at most 0.5 s leaves the local time unchanged and playback
starts; the active engine and the legacy variant agree, and the operation
trace shows the snap preceding the play call. -/
theorem c1_play_drift_asymmetry (s : PlayerState) (m : SyncMessage)
    (hsender : m.senderId ≠ s.senderId) (haction : m.action = "play") :
    (|s.video.currentTime - m.timestamp| > SYNC_THRESHOLD →
      remoteOps s.video m = [VideoOp.setCurrentTime m.timestamp, VideoOp.play] ∧
      remoteOpsLegacy s.video m = [VideoOp.setCurrentTime m.timestamp, VideoOp.play] ∧
      (handleData s m).1.video = { paused := false, currentTime := m.timestamp }) ∧
    (|s.video.currentTime - m.timestamp| ≤ SYNC_THRESHOLD →
      remoteOps s.video m = [VideoOp.play] ∧
      remoteOpsLegacy s.video m = [VideoOp.play] ∧
      (handleData s m).1.video = { paused := false, currentTime := s.video.currentTime }) ∧
    (handleData s m).1.isPlaying = true := by
  refine ⟨fun hd => ?_, fun hd => ?_, ?_⟩
  · have hd3 : (2 : ℚ)⁻¹ < |s.video.currentTime - m.timestamp| := by
      rw [← one_div]; exact hd
    refine ⟨?_, ?_, ?_⟩ <;>
      simp [remoteOps, remoteOpsLegacy, handleData, hsender, haction, hd, hd3,
        applyOps, applyOp]
  · have hd2 : ¬(SYNC_THRESHOLD < |s.video.currentTime - m.timestamp|) :=
      not_lt.mpr hd
    have hd4 : ¬((2 : ℚ)⁻¹ < |s.video.currentTime - m.timestamp|) := by
      rw [← one_div]; exact not_lt.mpr hd
    refine ⟨?_, ?_, ?_⟩ <;>
      simp [remoteOps, remoteOpsLegacy, handleData, hsender, haction, hd, hd2, hd4,
        applyOps, applyOp]
  · simp [handleData, hsender, haction]

/-- Witness for C1 at local time 10 and an inbound Play at 10.6 (drift 0.6). -/
theorem c1_play_drift_asymmetry_witness :
    ("peer-b" : String) ≠ "peer-a" ∧
    |(10 : ℚ) - 53 / 5| > SYNC_THRESHOLD ∧
    (handleData ⟨true, "peer-a", false, 0, false, ⟨true, 10⟩⟩
      ⟨"play", 53 / 5, "peer-b"⟩).1.video = { paused := false, currentTime := 53 / 5 } := by
  have hs : ("peer-b" : String) ≠ "peer-a" := by decide
  have hd : |(10 : ℚ) - 53 / 5| > SYNC_THRESHOLD := by
    rw [SYNC_THRESHOLD, gt_iff_lt, lt_abs]
    right
    norm_num
  exact ⟨hs, hd,
    ((c1_play_drift_asymmetry ⟨true, "peer-a", false, 0, false, ⟨true, 10⟩⟩
      ⟨"play", 53 / 5, "peer-b"⟩ hs rfl).1 hd).2.2⟩

/-- Claim C2 counterexample: the legacy VideoPlayer engine
(src/unnamed/part_001), cited by the claim, applies the 0.5 s tolerance to
Pause as well: an applied inbound Pause at timestamp 10.3 with local time 10
stops playback but leaves the local current time at 10 instead of snapping it
to 10.3, so the snap is not unconditional. -/
theorem c2_counterexample :
    ("peer-b" : String) ≠ "peer-a" ∧
    (handleDataLegacy ⟨true, "peer-a", false, 0, false, ⟨false, 10⟩⟩
      ⟨"pause", 103 / 10, "peer-b"⟩).1.video.paused = true ∧
    (handleDataLegacy ⟨true, "peer-a", false, 0, false, ⟨false, 10⟩⟩
      ⟨"pause", 103 / 10, "peer-b"⟩).1.video.currentTime = 10 ∧
    (10 : ℚ) ≠ 103 / 10 := by
  have hne : ("peer-b" : String) ≠ "peer-a" := by decide
  have hd : ¬((2 : ℚ)⁻¹ < |(10 : ℚ) - 103 / 10|) := by
    rw [not_lt, ← one_div, abs_le]
    constructor <;> norm_num
  refine ⟨hne, ?_, ?_, by norm_num⟩ <;>
    simp [handleDataLegacy, remoteOpsLegacy, applyOps, applyOp, hne, hd]

/-- Claim C2 amended: in the active VideoPlayer engine (src/unnamed/part_002)
an applied inbound Pause stops playback and then sets the local current time
to the message timestamp unconditionally; the legacy variant
(src/unnamed/part_001) instead snaps only when the drift exceeds 0.5 s and
leaves the local time unchanged otherwise. -/
theorem c2_pause_snap_amended (s : PlayerState) (m : SyncMessage)
    (hsender : m.senderId ≠ s.senderId) (haction : m.action = "pause") :
    remoteOps s.video m = [VideoOp.pause, VideoOp.setCurrentTime m.timestamp] ∧
    (handleData s m).1.video = { paused := true, currentTime := m.timestamp } ∧
    (handleData s m).1.isPlaying = false ∧
    (handleDataLegacy s m).1.video.paused = true ∧
    (|s.video.currentTime - m.timestamp| > SYNC_THRESHOLD →
      (handleDataLegacy s m).1.video.currentTime = m.timestamp) ∧
    (|s.video.currentTime - m.timestamp| ≤ SYNC_THRESHOLD →
      (handleDataLegacy s m).1.video.currentTime = s.video.currentTime) := by
  refine ⟨?_, ?_, ?_, ?_, fun hd => ?_, fun hd => ?_⟩
  · simp [remoteOps, haction]
  · simp [handleData, hsender, remoteOps, haction, applyOps, applyOp]
  · simp [handleData, hsender, haction]
  · by_cases hd : (2 : ℚ)⁻¹ < |s.video.currentTime - m.timestamp| <;>
      simp [handleDataLegacy, hsender, remoteOpsLegacy, haction, hd, applyOps, applyOp]
  · have hd3 : (2 : ℚ)⁻¹ < |s.video.currentTime - m.timestamp| := by
      rw [← one_div]; exact hd
    simp [handleDataLegacy, hsender, remoteOpsLegacy, haction, hd3, applyOps, applyOp]
  · have hd4 : ¬((2 : ℚ)⁻¹ < |s.video.currentTime - m.timestamp|) := by
      rw [← one_div]; exact not_lt.mpr hd
    simp [handleDataLegacy, hsender, remoteOpsLegacy, haction, hd4, applyOps, applyOp]

/-- Witness for the amended C2 at local time 10 and an inbound Pause at 10.3. -/
theorem c2_pause_snap_amended_witness :
    ("peer-b" : String) ≠ "peer-a" ∧
    (handleData ⟨true, "peer-a", false, 0, false, ⟨false, 10⟩⟩
      ⟨"pause", 103 / 10, "peer-b"⟩).1.video
        = { paused := true, currentTime := 103 / 10 } ∧
    |(10 : ℚ) - 103 / 10| ≤ SYNC_THRESHOLD ∧
    (handleDataLegacy ⟨true, "peer-a", false, 0, false, ⟨false, 10⟩⟩
      ⟨"pause", 103 / 10, "peer-b"⟩).1.video.currentTime = 10 := by
  have hne : ("peer-b" : String) ≠ "peer-a" := by decide
  have hd : |(10 : ℚ) - 103 / 10| ≤ SYNC_THRESHOLD := by
    rw [SYNC_THRESHOLD, abs_le]
    constructor <;> norm_num
  have h := c2_pause_snap_amended ⟨true, "peer-a", false, 0, false, ⟨false, 10⟩⟩
    ⟨"pause", 103 / 10, "peer-b"⟩ hne rfl
  exact ⟨hne, h.2.1, hd, h.2.2.2.2.2 hd⟩

/-- Claim C4: a received message whose senderId equals the engines own id is
never applied, for any action type: both engine variants return the state
unchanged and schedule nothing. -/
theorem c4_self_echo_suppressed (s : PlayerState) (m : SyncMessage)
    (h : m.senderId = s.senderId) :
    handleData s m = (s, none) ∧ handleDataLegacy s m = (s, none) := by
  constructor <;> simp [handleData, handleDataLegacy, h]

/-- Witness for C4 on a Seek message echoed back to its sender. -/
theorem c4_self_echo_suppressed_witness :
    handleData ⟨true, "peer-a", false, 0, false, ⟨false, 0⟩⟩
      ⟨"seek", 7, "peer-a"⟩ = (⟨true, "peer-a", false, 0, false, ⟨false, 0⟩⟩, none) :=
  (c4_self_echo_suppressed ⟨true, "peer-a", false, 0, false, ⟨false, 0⟩⟩
    ⟨"seek", 7, "peer-a"⟩ rfl).1

/-- Claim C9: a message that parsed but carries none of the four known
actions still makes the active engine enter applying-remote-message mode and
schedule its clearing after the 500 ms settle window, while the video element
and the isPlaying mirror stay unchanged. -/
theorem c9_unknown_action_settles (s : PlayerState) (m : SyncMessage)
    (hsender : m.senderId ≠ s.senderId)
    (hplay : m.action ≠ "play") (hpause : m.action ≠ "pause")
    (hseek : m.action ≠ "seek") (_hready : m.action ≠ "ready") :
    handleData s m = ({ s with isProcessingSync := true }, some 500) ∧
    (handleData s m).1.video = s.video ∧
    (handleData s m).1.isPlaying = s.isPlaying := by
  refine ⟨?_, ?_, ?_⟩ <;>
    simp [handleData, hsender, remoteOps, hplay, hpause, hseek, applyOps]

/-- Witness for C9 on an unknown action named sync. -/
theorem c9_unknown_action_settles_witness :
    handleData ⟨true, "peer-a", false, 0, true, ⟨false, 4⟩⟩ ⟨"sync", 9, "peer-b"⟩
      = (⟨true, "peer-a", true, 0, true, ⟨false, 4⟩⟩, some 500) :=
  (c9_unknown_action_settles ⟨true, "peer-a", false, 0, true, ⟨false, 4⟩⟩
    ⟨"sync", 9, "peer-b"⟩ (by decide) (by decide) (by decide) (by decide) (by decide)).1

/-- Claim C5: with two send attempts less than 200 ms apart, if the first one
went out then the second is dropped by the debounce, so at most one outbound
message leaves in that window. -/
theorem c5_debounce_drops_second (s : PlayerState) (a1 a2 : String)
    (q1 q2 : ℚ) (t1 t2 : ℤ) (hgap : t2 - t1 < 200)
    (hsent : (sendSync s t1 a1 q1).2.isSome = true) :
    (sendSync (sendSync s t1 a1 q1).1 t2 a2 q2).2 = none := by
  by_cases h1 : s.hasPeer = false ∨ s.isProcessingSync = true
  · rw [sendSync] at hsent
    simp [h1] at hsent
  · by_cases h2 : t1 - s.lastSyncTime < 200
    · rw [sendSync] at hsent
      simp [h1, h2] at hsent
    · have hstate : (sendSync s t1 a1 q1).1 = { s with lastSyncTime := t1 } := by
        rw [sendSync]
        simp [h1, h2]
      rw [hstate, sendSync]
      simp [h1, hgap]

/-- Witness for C5: two attempts at t = 1000 and t = 1100; the first goes
out, the second is dropped. -/
theorem c5_debounce_drops_second_witness :
    (sendSync (sendSync ⟨true, "peer-a", false, 0, false, ⟨true, 2⟩⟩ 1000 "seek" 2).1
      1100 "seek" 3).2 = none :=
  c5_debounce_drops_second ⟨true, "peer-a", false, 0, false, ⟨true, 2⟩⟩
    "seek" "seek" 2 3 1000 1100 (by decide) (by decide)

/-! ## Claim theorems: handshake and signal validation -/

/-- The truthiness-typeof-key chain of validateSignalData accepts exactly the
JSON objects carrying a key named type. -/
theorem validateSignalData_true_iff (parse : String → Option Json)
    (data : String) :
    validateSignalData parse data = true ↔
      ∃ v, parse data = some v ∧ isObjectWithTypeKey v = true := by
  rw [validateSignalData]
  cases hp : parse data with
  | none => simp
  | some v =>
    cases v <;>
      simp [jsTruthy, jsTypeofObject, jsHasProp, isObjectWithTypeKey]

/-- Claim C8: validateSignalData returns true exactly when the input parses
as JSON to a non-null object having a key named type, and returns false
rather than throwing whenever JSON.parse fails. -/
theorem c8_validate_signal_data (parse : String → Option Json) (data : String) :
    (validateSignalData parse data = true ↔
      ∃ v, parse data = some v ∧ isObjectWithTypeKey v = true) ∧
    (parse data = none → validateSignalData parse data = false) := by
  refine ⟨validateSignalData_true_iff parse data, fun hp => ?_⟩
  rw [validateSignalData, hp]

/-- Witness for C8: a parser that always throws makes the validator return
false, and one returning an object with a type key makes it return true. -/
theorem c8_validate_signal_data_witness :
    validateSignalData (fun _ => none) "not json" = false ∧
    validateSignalData (fun _ => some (Json.obj [("type", Json.str "offer")]))
      "blob" = true := by
  constructor
  · exact (c8_validate_signal_data (fun _ => none) "not json").2 rfl
  · exact (c8_validate_signal_data
      (fun _ => some (Json.obj [("type", Json.str "offer")])) "blob").1.mpr
      ⟨Json.obj [("type", Json.str "offer")], rfl, by decide⟩

/-- Claim C6: an Initiator session awaiting the remote signal, given a
well-formed blob whose type is not answer, rejects it with the role-mismatch
message naming the expected ANSWER kind, forwards nothing to the transport,
and keeps every other field of its state, in particular remaining in the
waiting state with hasSignaled still false. -/
theorem c6_host_role_mismatch (parse : String → Option Json) (s : HostState)
    (answerData : String) (v : Json)
    (hpeer : s.hasPeer = true)
    (hnonempty : jsTrim answerData ≠ "")
    (hnotsig : s.hasSignaled = false)
    (hstatus : s.status = HostStatus.waiting)
    (hdest : s.peerDestroyed = false)
    (hparse : parse answerData = some v)
    (hvalid : isObjectWithTypeKey v = true)
    (htype : typeIs v "answer" = false) :
    handleConnect parse s answerData
      = ({ s with errorMessage := errHostWrongType }, none) ∧
    (handleConnect parse s answerData).1.status = HostStatus.waiting ∧
    (handleConnect parse s answerData).1.hasSignaled = false := by
  have hval : validateSignalData parse answerData = true :=
    (validateSignalData_true_iff parse answerData).mpr ⟨v, hparse, hvalid⟩
  have hmain : handleConnect parse s answerData
      = ({ s with errorMessage := errHostWrongType }, none) := by
    rw [handleConnect]
    simp [hpeer, hnonempty, hnotsig, hstatus, hdest, hval, hparse, htype]
  refine ⟨hmain, ?_, ?_⟩ <;> rw [hmain]
  · exact hstatus
  · exact hnotsig

/-- Witness for C6: a waiting host session receives an offer-kind blob. -/
theorem c6_host_role_mismatch_witness :
    handleConnect (fun _ => some (Json.obj [("type", Json.str "offer")]))
      ⟨true, false, HostStatus.waiting, "", false⟩ "pasted blob"
      = (⟨true, false, HostStatus.waiting, errHostWrongType, false⟩, none) :=
  (c6_host_role_mismatch (fun _ => some (Json.obj [("type", Json.str "offer")]))
    ⟨true, false, HostStatus.waiting, "", false⟩ "pasted blob"
    (Json.obj [("type", Json.str "offer")])
    rfl (by decide) rfl rfl rfl rfl (by decide) (by decide)).1

/-- A stringifier distinguishing the two blobs of the C7 counterexample; the
platform JSON.stringify also maps them to distinct strings. -/
def cexStringify : Json → String
  | Json.obj (("sdp", Json.str s) :: _) => s
  | _ => ""

def cexOfferA : Json := Json.obj [("sdp", Json.str "sdp-a"), ("type", Json.str "offer")]

def cexOfferB : Json := Json.obj [("sdp", Json.str "sdp-b"), ("type", Json.str "offer")]

/-- Claim C7 counterexample: the onSignal filter of the host session checks
only the kind, not whether a localSignal already exists, so a second
offer-kind signal also becomes the localSignal, overwriting the first; hence
it is not only the first role-correct signal that is surfaced. -/
theorem c7_counterexample :
    typeIs cexOfferA "offer" = true ∧
    typeIs cexOfferB "offer" = true ∧
    (hostOnSignal cexStringify ⟨none, HostStatus.generating, "", false⟩
      cexOfferA).offerData = some "sdp-a" ∧
    (hostOnSignal cexStringify
      (hostOnSignal cexStringify ⟨none, HostStatus.generating, "", false⟩ cexOfferA)
      cexOfferB).offerData = some "sdp-b" ∧
    ("sdp-b" : String) ≠ "sdp-a" := by
  refine ⟨by decide, by decide, ?_, ?_, by decide⟩ <;> decide

/-- Claim C7 amended: in the active host and guest sessions every transport
signal whose type does not match the session role is silently discarded with
no state change at all, while every role-matching signal, not only the first,
becomes the stored localSignal, later ones overwriting earlier ones; in the
legacy RoomCreator variant (src/components/RoomCreator.tsx) the onSignal
handler has no kind filter, so every signal event of any kind becomes the
stored localSignal and surfaces to the user. -/
theorem c7_signal_kind_filter_amended (stringify : Json → String) (data : Json)
    (s : HostSignalState) (g : GuestSignalState) :
    (typeIs data "offer" = false → hostOnSignal stringify s data = s) ∧
    (typeIs data "offer" = true →
      (hostOnSignal stringify s data).offerData = some (stringify data) ∧
      (hostOnSignal stringify s data).status = HostStatus.waiting) ∧
    (typeIs data "answer" = false → guestOnSignal stringify g data = g) ∧
    (typeIs data "answer" = true →
      (guestOnSignal stringify g data).answerData = some (stringify data)) ∧
    (hostOnSignalLegacy stringify s data).offerData = some (stringify data) ∧
    (hostOnSignalLegacy stringify s data).status = HostStatus.waiting := by
  refine ⟨fun h => ?_, fun h => ?_, fun h => ?_, fun h => ?_, ?_, ?_⟩
  · simp [hostOnSignal, h]
  · constructor <;> simp [hostOnSignal, h]
  · simp [guestOnSignal, h]
  · simp [guestOnSignal, h]
  · simp [hostOnSignalLegacy]
  · simp [hostOnSignalLegacy]

/-- Witness for the amended C7: a candidate-kind signal leaves the active
host state untouched, an offer-kind signal is stored, and the legacy host
stores even the candidate-kind signal. -/
theorem c7_signal_kind_filter_amended_witness :
    hostOnSignal cexStringify ⟨none, HostStatus.generating, "", false⟩
      (Json.obj [("type", Json.str "candidate")])
      = ⟨none, HostStatus.generating, "", false⟩ ∧
    (hostOnSignal cexStringify ⟨none, HostStatus.generating, "", false⟩
      cexOfferA).offerData = some (cexStringify cexOfferA) ∧
    (hostOnSignalLegacy cexStringify ⟨none, HostStatus.generating, "", false⟩
      (Json.obj [("type", Json.str "candidate")])).offerData
      = some (cexStringify (Json.obj [("type", Json.str "candidate")])) := by
  have h := c7_signal_kind_filter_amended cexStringify
    (Json.obj [("type", Json.str "candidate")])
    ⟨none, HostStatus.generating, "", false⟩ ⟨none, "", false⟩
  have h2 := c7_signal_kind_filter_amended cexStringify cexOfferA
    ⟨none, HostStatus.generating, "", false⟩ ⟨none, "", false⟩
  exact ⟨h.1 (by decide), (h2.2.1 (by decide)).1, h.2.2.2.2.1⟩

/-- Claim C10: in the guest join flow every rejection path, namely an empty
input, signal data failing validation, or a well-formed blob whose type is
not offer, returns before any peer connection is created: no peer is
allocated, the stored peer field is untouched, and the only state change is
the error message. -/
theorem c10_guest_rejects_before_peer (parse : String → Option Json)
    (s : GuestState) (offerData : String) :
    (jsTrim offerData = "" →
      handleGenerateAnswer parse s offerData
        = ({ s with errorMessage := errPasteOffer }, false)) ∧
    (jsTrim offerData ≠ "" → validateSignalData parse offerData = false →
      handleGenerateAnswer parse s offerData
        = ({ s with errorMessage := errInvalidOffer }, false)) ∧
    (∀ v, jsTrim offerData ≠ "" → parse offerData = some v →
      isObjectWithTypeKey v = true → typeIs v "offer" = false →
      handleGenerateAnswer parse s offerData
        = ({ s with errorMessage := errGuestWrongType }, false)) := by
  refine ⟨fun h1 => ?_, fun h1 h2 => ?_, fun v h1 h2 h3 h4 => ?_⟩
  · rw [handleGenerateAnswer]
    simp [h1]
  · rw [handleGenerateAnswer]
    simp [h1, h2]
  · have hval : validateSignalData parse offerData = true :=
      (validateSignalData_true_iff parse offerData).mpr ⟨v, h2, h3⟩
    rw [handleGenerateAnswer]
    simp [h1, hval, h2, h4]

/-- Witness for C10 on the wrong-kind path: an answer-kind blob pasted into
the guest flow only sets the error message and creates no peer. -/
theorem c10_guest_rejects_before_peer_witness :
    handleGenerateAnswer (fun _ => some (Json.obj [("type", Json.str "answer")]))
      ⟨false, GuestStatus.idle, ""⟩ "pasted blob"
      = (⟨false, GuestStatus.idle, errGuestWrongType⟩, false) :=
  (c10_guest_rejects_before_peer
    (fun _ => some (Json.obj [("type", Json.str "answer")]))
    ⟨false, GuestStatus.idle, ""⟩ "pasted blob").2.2
    (Json.obj [("type", Json.str "answer")]) (by decide) rfl (by decide) (by decide)

end WatchParty
